import Mathlib

/- Verification of the broker RPC transport (broker_rpc.py): the obfuscation
cipher, the VA and CIA request encodings, the framing read loop, the
connection state machine and the connection pool. Strings from the Python
source are modelled as lists of character codes (List Nat). -/

set_option maxHeartbeats 1000000
set_option maxRecDepth 4000

namespace BrokerRPC

/-- First index of code c in a list, as Python str.find (none when absent). -/
def findIdxA (c : Nat) : List Nat → Option Nat
  | [] => none
  | x :: xs => if x = c then some 0 else (findIdxA c xs).map (fun i => i + 1)

/-- Whether pat occurs at the start of l, as re.match with a literal pattern. -/
def beginsWith : List Nat → List Nat → Bool
  | [], _ => true
  | _ :: _, [] => false
  | p :: ps, x :: xs => x = p && beginsWith ps xs

/-- Whether pat occurs anywhere inside l, as re.search with a literal pattern. -/
def containsSeq (pat : List Nat) : List Nat → Bool
  | [] => beginsWith pat []
  | x :: xs => beginsWith pat (x :: xs) || containsSeq pat xs

def acceptTok : List Nat := [97, 99, 99, 101, 112, 116]
def invalidAVTok : List Nat := [78, 111, 116, 32, 97, 32, 118, 97, 108, 105, 100, 32, 65, 67, 67, 69, 83, 83, 32, 67, 79, 68, 69, 47, 86, 69, 82, 73, 70, 89, 32, 67, 79, 68, 69, 32, 112, 97, 105, 114]
def ctxNotCreatedTok : List Nat := [65, 112, 112, 108, 105, 99, 97, 116, 105, 111, 110, 32, 99, 111, 110, 116, 101, 120, 116, 32, 104, 97, 115, 32, 110, 111, 116, 32, 98, 101, 101, 110, 32, 99, 114, 101, 97, 116, 101, 100]
def ctxNotExistTok : List Nat := [100, 111, 101, 115, 32, 110, 111, 116, 32, 101, 120, 105, 115, 116, 32, 111, 110, 32, 115, 101, 114, 118, 101, 114]
def byeTok : List Nat := [35, 66, 89, 69, 35]
def ciaTok : List Nat := [67, 73, 65]
def protocolToken : List Nat := [91, 88, 87, 66, 93, 49, 49, 51, 48]

namespace RPCConnection

/-- The 20-row substitution table hardcoded in RPCConnection.CIPHER, one list of
character codes per row, transcribed verbatim from the source. -/
def CIPHER : List (List Nat) :=
  [
   [119, 107, 69, 111, 45, 90, 74, 116, 33, 100, 71, 41, 52, 57, 75, 123, 110, 88, 49, 66, 83, 36, 118, 72, 60, 38, 58, 77, 121, 102, 42, 62, 65, 101, 48, 106, 81, 87, 61, 59, 124, 35, 80, 115, 79, 96, 39, 37, 43, 114, 109, 98, 91, 103, 112, 113, 78, 44, 108, 54, 47, 104, 70, 67, 64, 68, 99, 85, 97, 32, 93, 122, 126, 82, 125, 34, 86, 92, 105, 73, 120, 117, 63, 56, 55, 50, 46, 40, 84, 89, 76, 53, 95, 51],
   [114, 75, 118, 96, 82, 59, 77, 47, 57, 66, 113, 65, 70, 37, 38, 116, 83, 115, 35, 86, 104, 41, 100, 79, 49, 68, 90, 80, 62, 32, 42, 102, 88, 39, 117, 91, 46, 52, 108, 89, 61, 45, 109, 103, 95, 99, 105, 56, 48, 50, 78, 55, 76, 84, 71, 60, 93, 33, 67, 87, 111, 58, 51, 63, 123, 43, 44, 53, 81, 125, 40, 64, 106, 97, 69, 120, 110, 36, 126, 112, 92, 73, 121, 72, 119, 122, 85, 34, 124, 107, 54, 74, 101, 98],
   [92, 112, 86, 40, 90, 74, 107, 34, 87, 81, 109, 67, 110, 33, 89, 44, 121, 64, 49, 100, 43, 126, 56, 115, 63, 91, 108, 78, 77, 120, 103, 72, 69, 116, 61, 117, 119, 124, 88, 58, 113, 83, 76, 106, 65, 73, 42, 125, 54, 122, 111, 70, 123, 84, 51, 35, 59, 99, 97, 41, 47, 104, 53, 37, 96, 80, 52, 36, 114, 93, 71, 39, 57, 101, 50, 105, 102, 95, 62, 85, 68, 75, 98, 55, 60, 118, 48, 38, 45, 32, 82, 66, 79, 46],
   [100, 101, 112, 106, 116, 51, 103, 52, 87, 41, 113, 68, 48, 86, 126, 78, 74, 97, 114, 92, 66, 32, 34, 63, 79, 89, 104, 99, 117, 91, 60, 77, 115, 37, 90, 96, 82, 73, 76, 95, 54, 58, 93, 65, 88, 45, 122, 71, 46, 35, 125, 36, 64, 118, 107, 55, 47, 53, 120, 38, 42, 109, 59, 40, 121, 98, 50, 70, 110, 43, 108, 39, 80, 119, 85, 111, 102, 49, 75, 123, 57, 44, 124, 69, 81, 105, 62, 72, 61, 67, 84, 56, 83, 33],
   [78, 90, 87, 58, 49, 125, 75, 36, 98, 121, 80, 59, 106, 107, 41, 55, 39, 96, 120, 57, 48, 66, 124, 99, 113, 64, 105, 83, 115, 69, 110, 117, 44, 40, 108, 45, 104, 102, 46, 38, 89, 95, 63, 74, 35, 82, 93, 43, 118, 111, 81, 88, 85, 56, 109, 114, 86, 91, 33, 112, 52, 116, 103, 126, 79, 77, 101, 122, 32, 67, 65, 97, 71, 70, 68, 54, 72, 53, 51, 37, 76, 47, 100, 84, 50, 60, 42, 62, 34, 123, 92, 119, 73, 61],
   [118, 67, 105, 74, 60, 111, 90, 57, 124, 112, 104, 88, 86, 78, 110, 41, 109, 32, 75, 96, 116, 47, 83, 73, 37, 93, 65, 53, 113, 79, 87, 101, 92, 38, 63, 59, 106, 84, 126, 77, 33, 102, 122, 49, 108, 62, 91, 68, 95, 48, 120, 82, 51, 50, 99, 42, 52, 46, 80, 34, 71, 123, 114, 55, 125, 69, 56, 119, 85, 103, 121, 117, 100, 70, 43, 54, 45, 58, 66, 61, 36, 40, 115, 89, 44, 76, 107, 98, 72, 97, 35, 39, 64, 81],
   [104, 118, 77, 88, 44, 39, 52, 84, 121, 59, 91, 97, 56, 47, 123, 54, 108, 126, 70, 95, 86, 34, 125, 113, 76, 73, 92, 33, 64, 120, 40, 68, 55, 98, 82, 109, 85, 72, 93, 87, 49, 53, 74, 37, 78, 48, 66, 89, 80, 107, 114, 115, 38, 57, 58, 36, 41, 90, 106, 62, 117, 124, 122, 119, 81, 61, 105, 101, 67, 45, 111, 71, 65, 46, 35, 63, 116, 102, 100, 99, 79, 51, 103, 112, 96, 83, 43, 69, 110, 32, 75, 50, 42, 60],
   [106, 100, 33, 87, 53, 91, 93, 59, 52, 39, 60, 67, 36, 47, 38, 120, 124, 114, 90, 40, 107, 123, 62, 63, 103, 104, 66, 122, 73, 70, 78, 125, 102, 65, 75, 34, 35, 96, 112, 95, 84, 113, 116, 68, 42, 49, 69, 51, 55, 88, 71, 86, 115, 64, 48, 110, 109, 83, 101, 43, 89, 54, 81, 121, 111, 45, 97, 85, 117, 37, 105, 56, 99, 61, 72, 50, 118, 74, 92, 41, 32, 82, 58, 77, 76, 98, 46, 57, 44, 119, 108, 79, 126, 80],
   [50, 84, 104, 116, 106, 69, 77, 43, 33, 61, 120, 88, 98, 41, 55, 44, 90, 86, 123, 42, 99, 105, 51, 34, 56, 64, 95, 108, 45, 72, 83, 54, 57, 76, 62, 93, 92, 65, 85, 70, 47, 81, 37, 58, 113, 68, 63, 49, 126, 109, 40, 121, 118, 79, 48, 101, 39, 60, 35, 111, 36, 112, 52, 100, 110, 73, 122, 75, 80, 124, 96, 78, 114, 107, 97, 71, 103, 46, 117, 102, 67, 82, 66, 91, 59, 32, 115, 74, 89, 119, 87, 125, 53, 38],
   [118, 66, 92, 53, 47, 122, 108, 45, 57, 121, 58, 80, 106, 124, 61, 40, 82, 39, 55, 81, 74, 73, 32, 42, 38, 67, 84, 88, 34, 112, 48, 93, 95, 51, 46, 105, 100, 99, 117, 79, 101, 102, 86, 85, 35, 111, 109, 119, 78, 90, 96, 36, 70, 115, 63, 76, 43, 49, 83, 107, 60, 44, 98, 41, 104, 77, 52, 65, 54, 91, 89, 37, 97, 68, 114, 103, 64, 126, 75, 113, 69, 87, 56, 116, 62, 72, 125, 59, 110, 33, 50, 120, 71, 123],
   [115, 70, 122, 48, 66, 111, 64, 95, 72, 102, 110, 75, 62, 76, 82, 125, 113, 87, 88, 86, 43, 68, 54, 96, 89, 50, 56, 61, 52, 67, 109, 126, 71, 47, 55, 45, 53, 65, 92, 98, 57, 33, 97, 35, 114, 80, 46, 108, 38, 77, 36, 104, 99, 51, 105, 106, 81, 107, 59, 41, 44, 84, 118, 85, 100, 60, 91, 58, 73, 34, 117, 49, 39, 78, 90, 83, 79, 119, 93, 42, 103, 120, 116, 69, 123, 101, 74, 112, 124, 121, 32, 40, 63, 37],
   [77, 64, 44, 68, 125, 124, 76, 74, 121, 71, 79, 56, 96, 36, 42, 90, 113, 72, 32, 46, 106, 62, 99, 126, 104, 60, 100, 61, 102, 105, 109, 115, 122, 118, 91, 35, 45, 53, 51, 70, 33, 43, 97, 59, 78, 67, 39, 54, 84, 57, 49, 73, 86, 63, 40, 48, 120, 38, 47, 123, 66, 41, 119, 34, 93, 81, 92, 89, 85, 87, 112, 114, 107, 52, 58, 111, 108, 37, 103, 50, 110, 69, 55, 116, 101, 82, 75, 98, 65, 80, 117, 83, 95, 88],
   [46, 109, 106, 89, 35, 95, 48, 42, 72, 60, 66, 61, 81, 43, 70, 77, 76, 54, 93, 115, 59, 114, 50, 58, 101, 56, 82, 125, 91, 105, 99, 38, 75, 65, 32, 49, 119, 123, 41, 118, 86, 53, 100, 44, 36, 117, 34, 126, 120, 68, 47, 80, 103, 63, 73, 121, 102, 116, 104, 79, 64, 67, 122, 87, 112, 37, 33, 96, 78, 52, 90, 39, 51, 45, 40, 111, 124, 74, 57, 88, 85, 69, 55, 107, 92, 84, 108, 113, 83, 98, 62, 97, 110, 71],
   [120, 86, 97, 49, 39, 93, 95, 71, 85, 60, 88, 96, 124, 92, 78, 103, 77, 63, 76, 83, 57, 123, 34, 106, 84, 37, 115, 36, 125, 121, 91, 110, 118, 116, 108, 101, 102, 66, 50, 82, 75, 74, 87, 126, 40, 47, 99, 73, 68, 67, 80, 111, 119, 52, 44, 62, 35, 122, 109, 43, 58, 53, 98, 64, 48, 54, 79, 51, 65, 112, 56, 61, 42, 55, 90, 70, 89, 33, 72, 45, 117, 69, 81, 107, 59, 32, 46, 113, 41, 105, 38, 114, 104, 100],
   [73, 93, 74, 122, 55, 65, 71, 64, 81, 88, 46, 34, 37, 51, 76, 113, 62, 77, 69, 84, 85, 111, 123, 80, 112, 95, 32, 124, 97, 54, 60, 48, 100, 89, 86, 83, 118, 56, 58, 98, 41, 126, 87, 57, 78, 75, 96, 40, 114, 39, 52, 102, 115, 38, 119, 105, 109, 92, 107, 82, 101, 67, 50, 104, 103, 61, 72, 79, 106, 36, 49, 66, 42, 47, 110, 120, 116, 44, 59, 99, 35, 121, 43, 33, 91, 63, 108, 70, 117, 90, 45, 53, 68, 125],
   [82, 114, 40, 71, 101, 54, 70, 32, 72, 120, 62, 113, 36, 109, 38, 67, 37, 77, 126, 84, 110, 44, 58, 34, 111, 39, 116, 88, 47, 42, 121, 80, 46, 123, 108, 90, 33, 89, 107, 105, 86, 104, 117, 119, 95, 60, 75, 69, 53, 97, 91, 59, 125, 87, 48, 103, 106, 115, 122, 51, 93, 64, 55, 99, 73, 50, 92, 81, 78, 63, 102, 35, 52, 112, 124, 118, 98, 49, 79, 85, 66, 68, 57, 41, 61, 45, 76, 74, 65, 43, 100, 96, 83, 56],
   [73, 126, 107, 62, 121, 124, 109, 125, 59, 100, 41, 45, 55, 68, 90, 34, 70, 101, 47, 89, 60, 66, 58, 120, 119, 111, 106, 82, 44, 86, 104, 93, 79, 48, 83, 99, 91, 96, 36, 115, 103, 56, 71, 88, 69, 33, 49, 38, 81, 114, 122, 112, 46, 95, 87, 37, 84, 78, 75, 40, 61, 74, 32, 51, 105, 42, 50, 97, 98, 117, 72, 65, 52, 67, 39, 63, 77, 118, 92, 80, 113, 123, 110, 35, 53, 54, 76, 102, 116, 85, 108, 64, 57, 43],
   [126, 65, 42, 62, 57, 32, 87, 105, 100, 70, 78, 44, 49, 75, 115, 109, 119, 81, 41, 71, 74, 77, 123, 73, 52, 58, 67, 37, 125, 35, 69, 112, 40, 63, 72, 66, 47, 114, 59, 116, 46, 38, 85, 56, 111, 124, 108, 91, 39, 76, 103, 34, 50, 104, 82, 68, 121, 90, 53, 96, 110, 98, 102, 93, 113, 106, 99, 48, 33, 122, 83, 45, 84, 107, 89, 79, 60, 95, 61, 55, 54, 97, 92, 88, 64, 36, 80, 101, 51, 43, 120, 86, 118, 117],
   [121, 89, 103, 106, 102, 34, 53, 86, 100, 72, 99, 35, 117, 65, 44, 87, 49, 105, 43, 118, 39, 54, 124, 64, 112, 114, 123, 110, 59, 68, 74, 33, 56, 40, 98, 116, 80, 71, 97, 81, 77, 46, 76, 84, 51, 111, 101, 63, 78, 66, 47, 38, 57, 62, 90, 96, 45, 125, 48, 50, 42, 37, 120, 60, 55, 108, 115, 113, 122, 52, 79, 83, 32, 126, 69, 36, 92, 82, 93, 75, 73, 91, 58, 85, 119, 67, 95, 61, 104, 41, 107, 88, 109, 70],
   [53, 58, 105, 97, 114, 46, 123, 89, 85, 55, 109, 66, 90, 82, 64, 45, 75, 124, 50, 32, 34, 43, 126, 96, 77, 37, 56, 115, 113, 52, 74, 104, 80, 111, 60, 95, 88, 92, 83, 103, 51, 87, 67, 59, 84, 117, 120, 122, 44, 102, 118, 69, 81, 49, 112, 57, 61, 119, 125, 70, 65, 73, 38, 106, 47, 107, 101, 68, 48, 99, 63, 41, 76, 78, 54, 79, 72, 86, 93, 108, 71, 121, 39, 36, 42, 62, 110, 100, 91, 40, 116, 98, 33, 35]]

/-- One character of RPCConnection.encrypt: look the code up in row cra; when
found at index i emit the code of row crb at i, otherwise pass it through. -/
def encChar (cra crb : List Nat) (c : Nat) : Nat :=
  match findIdxA c cra with
  | none => c
  | some i => crb.getD i 0

/-- The reverse lookup described by the spec: find the output code in row crb
and read row cra at the found index. -/
def decChar (cra crb : List Nat) (o : Nat) : Nat :=
  match findIdxA o crb with
  | none => o
  | some i => cra.getD i 0

/-- The pairs of row indices the random selection loop of encrypt can settle
on: ra = randint(0, 18), rb = randint(0, 18) rerolled while rb = ra or rb = 0. -/
def selectablePair (ra rb : Nat) : Prop :=
  ra ≤ 18 ∧ rb ≤ 18 ∧ ¬(rb = ra ∨ rb = 0)

instance (ra rb : Nat) : Decidable (selectablePair ra rb) := by
  unfold selectablePair; infer_instance

/-- RPCConnection.encrypt with the two random row choices made explicit:
the first selector code, one output code per input code, the second selector. -/
def encrypt (ra rb : Nat) (val : List Nat) : List Nat :=
  (ra + 32) :: (val.map (encChar (CIPHER.getD ra []) (CIPHER.getD rb []))) ++ [rb + 32]

end RPCConnection

/-- Socket attribute of a connection: None, an open socket object, or a
socket object that has been closed but not cleared from the attribute. -/
inductive SockSt where
  | noSock
  | openSock
  | closedSock
deriving DecidableEq

namespace RPCConnection

/-- Result of the read loop on a given chunk script: a returned message, an
IndexError from indexing an empty stripped chunk, or exhaustion of the script
while the loop would still block on recv. -/
inductive ReadRes where
  | ok (msg : List Nat)
  | exn
  | hung
deriving DecidableEq

/-- The strip of the leading NUL control pair: applied when nothing has been
accumulated yet and the first code of the chunk is 0, it drops two codes. -/
def stripNul (acc : List (List Nat)) (chunk : List Nat) : List Nat :=
  if acc = [] ∧ chunk.head? = some 0 then chunk.drop 2 else chunk

/-- RPCConnection.readToEndMarker with the successive recv results given as a
script of chunks: an empty chunk (peer closed) breaks the loop and the
accumulation so far is joined and returned, indexing the final code of an
empty stripped chunk raises IndexError, and a chunk whose final code equals
the end marker ends the message with that code stripped. -/
def readToEndMarker (em : Nat) : List (List Nat) → List (List Nat) → ReadRes
  | [], _ => .hung
  | chunk :: rest, acc =>
    if chunk = [] then .ok acc.flatten
    else if stripNul acc chunk = [] then .exn
    else if (stripNul acc chunk).getLastD 0 = em then
      .ok (acc ++ [(stripNul acc chunk).dropLast]).flatten
    else readToEndMarker em rest (acc ++ [stripNul acc chunk])

/-- What the network does to one send-and-read attempt of invokeRPC: a
socket-level error, a reply string, or a non-socket exception from the read. -/
inductive AttemptRes where
  | sockErr
  | reply (msg : List Nat)
  | otherExn
deriving DecidableEq

/-- Errors invokeRPC can propagate to its caller. -/
inductive InvokeErr where
  | sockFail
  | uncaught
deriving DecidableEq

/-- The retry path of invokeRPC: connect, resend, read, with no exception
handler around it, so any failure propagates and an empty reply is returned. -/
def retryAttempt : AttemptRes → Except InvokeErr (List Nat)
  | .sockErr => .error .sockFail
  | .otherExn => .error .uncaught
  | .reply m => .ok m

/-- The lazy-connect test at the top of RPCConnection.invokeRPC: connect runs
first exactly when the socket attribute is None. -/
def connectsOnInvoke (st : SockSt) : Bool := st = SockSt.noSock

/-- RPCConnection.invokeRPC with the network behaviour made explicit: st is
the socket state on entry, req the serialized request, a1 and a2 the outcomes
the network gives to the first and to the retried send-and-read attempt.
Returns the propagated result, the list of requests sent, and the number of
connect calls performed. -/
def invokeRPC (st : SockSt) (req : List Nat) (a1 a2 : AttemptRes) :
    Except InvokeErr (List Nat) × List (List Nat) × Nat :=
  let c0 : Nat := if connectsOnInvoke st then 1 else 0
  match a1 with
  | .otherExn => (.error .uncaught, [req], c0)
  | .sockErr => (retryAttempt a2, [req, req], c0 + 1)
  | .reply m =>
    if m = [] then (retryAttempt a2, [req, req], c0 + 1)
    else (.ok m, [req], c0)

/-- RPCConnection.close: a set socket attribute (open or already closed)
triggers a send of the BYE token and a close; the send raises on an already
closed socket. Returns the outcome, the state after, and the tokens sent. -/
def close : SockSt → Except Unit SockSt × List (List Nat)
  | .noSock => (.ok .noSock, [])
  | .openSock => (.ok .closedSock, [byeTok])
  | .closedSock => (.error (), [])

end RPCConnection

namespace VistARPCConnection

/-- A request parameter: a scalar string or a keyed collection, as
distinguished by VistARPCConnection.makeRequest. -/
inductive Param where
  | scalar (s : List Nat)
  | keyed (kvs : List (List Nat × List Nat))
deriving DecidableEq

/-- A parameter small enough for every 3-digit zero-padded length field. -/
def validParam : Param → Prop
  | .scalar s => s.length ≤ 999
  | .keyed kvs => ∀ kv ∈ kvs, kv.1.length ≤ 999 ∧ kv.2.length ≤ 999

instance (p : Param) : Decidable (validParam p) := by
  cases p <;> (unfold validParam; infer_instance)

/-- Decimal digit codes of n, most significant first, as Python str. -/
def decDigits (n : Nat) : List Nat :=
  if h : n < 10 then [48 + n] else decDigits (n / 10) ++ [48 + n % 10]
termination_by n
decreasing_by exact Nat.div_lt_self (by omega) (by omega)

/-- The 3-digit zero-padded decimal length field, as str(n).zfill(3). -/
def zfill3 (n : Nat) : List Nat :=
  List.replicate (3 - (decDigits n).length) 48 ++ decDigits n

/-- The key and value pairs of a keyed-collection parameter, each as two
length-prefixed strings, with the separator code 116 before every pair except
the first. -/
def encodeKVs : Bool → List (List Nat × List Nat) → List Nat
  | _, [] => []
  | first, (k, v) :: rest =>
    (if first then [] else [116])
      ++ zfill3 k.length ++ k ++ zfill3 v.length ++ v ++ encodeKVs false rest

/-- One parameter entry: code 48 tags a scalar, code 50 a keyed collection,
and code 102 terminates the entry. -/
def encodeParam : Param → List Nat
  | .scalar s => 48 :: (zfill3 s.length ++ s ++ [102])
  | .keyed kvs => 50 :: (encodeKVs true kvs ++ [102])

/-- VistARPCConnection.makeRequest: protocol token, command token, the name as
a one-code length prefix plus its codes, the parameter section opened by code
53 (with codes 52 and 102 when the list is empty), and the end code 4. -/
def makeRequest (name : List Nat) (params : List Param) (isCommand : Bool) : List Nat :=
  protocolToken
    ++ (if isCommand then [52] else [50, 1, 49])
    ++ (name.length :: name)
    ++ [53]
    ++ (if params.isEmpty then [52, 102] else (params.map encodeParam).flatten)
    ++ [4]

/-- Reads a 3-digit zero-padded decimal length field, per the spec grammar. -/
def read3 : List Nat → Option (Nat × List Nat)
  | a :: b :: c :: rest =>
    if 48 ≤ a ∧ a ≤ 57 ∧ 48 ≤ b ∧ b ≤ 57 ∧ 48 ≤ c ∧ c ≤ 57 then
      some ((a - 48) * 100 + (b - 48) * 10 + (c - 48), rest)
    else none
  | _ => none

/-- Reads exactly n codes. -/
def takeN (n : Nat) (l : List Nat) : Option (List Nat × List Nat) :=
  if n ≤ l.length then some (l.take n, l.drop n) else none

/-- Consumes an expected token from the front of the input. -/
def dropTok : List Nat → List Nat → Option (List Nat)
  | [], l => some l
  | _ :: _, [] => none
  | t :: ts, x :: xs => if x = t then dropTok ts xs else none

/-- Reads one key and value pair, each a 3-digit length then that many codes. -/
def parsePair (l : List Nat) : Option ((List Nat × List Nat) × List Nat) :=
  match read3 l with
  | none => none
  | some (kl, l1) =>
    match takeN kl l1 with
    | none => none
    | some (k, l2) =>
      match read3 l2 with
      | none => none
      | some (vl, l3) =>
        match takeN vl l3 with
        | none => none
        | some (v, l4) => some ((k, v), l4)

/-- Reads the pairs after the first one: code 102 closes the collection and
code 116 announces a further pair. -/
def parsePairsRest (fuel : Nat) (l : List Nat) :
    Option (List (List Nat × List Nat) × List Nat) :=
  match fuel, l with
  | 0, _ => none
  | _ + 1, [] => none
  | fuel + 1, x :: rest =>
    if x = 102 then some ([], rest)
    else if x = 116 then
      match parsePair rest with
      | none => none
      | some (kv, l1) =>
        match parsePairsRest fuel l1 with
        | none => none
        | some (kvs, l2) => some (kv :: kvs, l2)
    else none

/-- Reads the body of a keyed collection: code 102 immediately closes an empty
collection, otherwise a first pair is read and the remaining pairs follow. -/
def parsePairsStart (fuel : Nat) (l : List Nat) :
    Option (List (List Nat × List Nat) × List Nat) :=
  if l.head? = some 102 then some ([], l.tail)
  else
    match parsePair l with
    | none => none
    | some (kv, l1) =>
      match parsePairsRest fuel l1 with
      | none => none
      | some (kvs, l2) => some (kv :: kvs, l2)

/-- Reads parameter entries until the end code 4: code 48 opens a scalar entry
and code 50 a keyed collection, each closed by code 102. -/
def parseParams (fuel : Nat) (l : List Nat) : Option (List Param × List Nat) :=
  match fuel, l with
  | 0, _ => none
  | _ + 1, [] => none
  | fuel + 1, x :: rest =>
    if x = 4 then some ([], rest)
    else if x = 48 then
      match read3 rest with
      | none => none
      | some (n, l1) =>
        match takeN n l1 with
        | none => none
        | some (s, l2) =>
          match l2 with
          | 102 :: l3 =>
            match parseParams fuel l3 with
            | none => none
            | some (ps, l4) => some (.scalar s :: ps, l4)
          | _ => none
    else if x = 50 then
      match parsePairsStart rest.length rest with
      | none => none
      | some (kvs, l1) =>
        match parseParams fuel l1 with
        | none => none
        | some (ps, l2) => some (.keyed kvs :: ps, l2)
    else none

/-- Reads the parameter section: codes 52 and 102 then the end code 4 denote
an empty list, anything else is a run of parameter entries ended by code 4. -/
def parseBody (r : List Nat) : Option (List Param × List Nat) :=
  match r with
  | [] => none
  | x :: rest =>
    if x = 52 then
      match rest with
      | 102 :: 4 :: rest2 => some ([], rest2)
      | _ => none
    else parseParams (x :: rest).length (x :: rest)

/-- Decoder of the VA request grammar written from the spec: protocol token,
command token, length-prefixed name, parameter section, and nothing after the
end code. Recovers the command flag, the name and the parameter list. -/
def parseVARequest (l : List Nat) : Option (Bool × List Nat × List Param) :=
  match dropTok protocolToken l with
  | none => none
  | some l1 =>
    let step2 : Option (Bool × List Nat) :=
      match l1 with
      | 52 :: r => some (true, r)
      | 50 :: 1 :: 49 :: r => some (false, r)
      | _ => none
    match step2 with
    | none => none
    | some (isCmd, l2) =>
      match l2 with
      | [] => none
      | n :: l3 =>
        match takeN n l3 with
        | none => none
        | some (nm, l4) =>
          match l4 with
          | 53 :: r =>
            match parseBody r with
            | none => none
            | some (ps, rest) => if rest = [] then some (isCmd, nm, ps) else none
          | _ => none

/-- The four handshake replies the server gives VistARPCConnection.connect. -/
structure HSReplies where
  r1 : List Nat
  r2 : List Nat
  r3 : List Nat
  r4 : List Nat

/-- VistARPCConnection.connect with the handshake replies given by the
network: a fresh socket is always opened (any prior one is closed first), the
negotiation reply must begin with the accept token, the credential reply must
not contain the invalid-pair marker, and the context reply must not contain
either context-failure marker; the first failed check raises. The state of
the socket attribute after the call is returned in both outcomes. -/
def connect (st : SockSt) (rs : HSReplies) : Except Unit Unit × SockSt :=
  if beginsWith acceptTok rs.r1 = false then (.error (), .openSock)
  else if containsSeq invalidAVTok rs.r3 = true then (.error (), .openSock)
  else if (containsSeq ctxNotCreatedTok rs.r4 || containsSeq ctxNotExistTok rs.r4) = true then
    (.error (), .openSock)
  else (.ok (), .openSock)

end VistARPCConnection

namespace CIARPCConnection

/-- Little-endian base-256 digits of n as produced by the while loop of
byteIt, empty for 0. -/
def toLE (n : Nat) : List Nat :=
  if h : n = 0 then [] else (n % 256) :: toLE (n / 256)
termination_by n
decreasing_by exact Nat.div_lt_self (by omega) (by omega)

/-- The nibble-packed length header of CIARPCConnection.byteIt: one code
carrying the count of extra length bytes in its high nibble and length mod 16
in its low nibble, then the extra bytes most significant first. -/
def byteItHeader (slen : Nat) : List Nat :=
  let bs := toLE (slen / 16)
  (bs.length * 16 + slen % 16) :: bs.reverse

/-- CIARPCConnection.byteIt on a byte string: the length header followed by
the raw bytes. -/
def byteIt (s : List Nat) : List Nat := byteItHeader s.length ++ s

/-- Decoder of the header written from the spec: the high nibble of the first
code counts the extra bytes, which extend length div 16 most significant
first, and the low nibble gives length mod 16. -/
def decodeHeader : List Nat → Option (Nat × List Nat)
  | [] => none
  | b :: rest =>
    if b / 16 ≤ rest.length then
      some (((rest.take (b / 16)).foldl (fun acc x => acc * 256 + x) 0) * 16 + b % 16,
            rest.drop (b / 16))
    else none

end CIARPCConnection

namespace RPCConnectionPool

/-- Broker flavor of a pooled transport. -/
inductive Flavor where
  | vista
  | cia
deriving DecidableEq

/-- RPCConnectionPool.__prebuildConnections: poolSize transports are built
with pool ids poolSize down to 1 and pushed onto the LIFO store, so the store
from top to bottom holds ids 1 up to poolSize; the flavor is CIA exactly for
the broker type equal to the CIA token and VistA for every other value. -/
def prebuildConnections (brokerType : List Nat) (poolSize : Nat) :
    List (Flavor × Nat) :=
  (List.range poolSize).map
    (fun k => (if brokerType = ciaTok then Flavor.cia else Flavor.vista, k + 1))

/-- RPCConnectionPool.invokeRPC on a store whose LIFO top is t: t is taken off
the store and its invokeRPC is run with outcome behave t; on success the
transport is pushed back and the reply returned, on failure the error is
re-raised after the except branch. Returns the result and the store after. -/
def invokeRPC {a e r : Type} (t : a) (rest : List a) (behave : a → Except e r) :
    Except e r × List a :=
  match behave t with
  | .ok v => (.ok v, t :: rest)
  | .error err => (.error err, rest)

end RPCConnectionPool

theorem cipher_rows : ∀ r ∈ RPCConnection.CIPHER, r.Nodup ∧ r.length = 94 := by
  decide


theorem findIdxA_self (l : List Nat) (hnd : l.Nodup) :
    ∀ i, i < l.length → findIdxA (l.getD i 0) l = some i := by
  induction l with
  | nil => intro i h; simp at h
  | cons x xs ih =>
    intro i h
    cases i with
    | zero => simp [findIdxA]
    | succ n =>
      have hx : x ∉ xs := (List.nodup_cons.mp hnd).1
      have hnd2 : xs.Nodup := (List.nodup_cons.mp hnd).2
      have hn : n < xs.length := by simpa using h
      have hmem : xs.getD n 0 ∈ xs := by
        rw [List.getD_eq_getElem xs 0 hn]
        exact List.getElem_mem hn
      have hne : x ≠ xs.getD n 0 := fun hEq => hx (hEq ▸ hmem)
      rw [List.getD_cons_succ]
      simp only [findIdxA]
      rw [if_neg hne, ih hnd2 n hn]
      rfl

theorem cipher_len : RPCConnection.CIPHER.length = 20 := by decide

theorem cipher_row_facts (a : Nat) (ha : a ≤ 18) :
    (RPCConnection.CIPHER.getD a []).Nodup
    ∧ (RPCConnection.CIPHER.getD a []).length = 94 := by
  have hlt : a < RPCConnection.CIPHER.length := by rw [cipher_len]; omega
  have hm : RPCConnection.CIPHER.getD a [] ∈ RPCConnection.CIPHER := by
    rw [List.getD_eq_getElem _ _ hlt]
    exact List.getElem_mem hlt
  exact cipher_rows _ hm

/-- C5: for every pair of distinct non-zero row indices a and b that encrypt
may select and every index i into row a, substituting the row-a character at i
yields the row-b character at i, and looking that output up in row b and
reading row a at the found position recovers the original character. -/
theorem C5_cipher_roundtrip (a b i : Nat)
    (ha1 : 1 ≤ a) (ha2 : a ≤ 18) (hb1 : 1 ≤ b) (hb2 : b ≤ 18) (hab : a ≠ b)
    (hi : i < 94) :
    RPCConnection.encChar (RPCConnection.CIPHER.getD a []) (RPCConnection.CIPHER.getD b [])
        ((RPCConnection.CIPHER.getD a []).getD i 0)
      = (RPCConnection.CIPHER.getD b []).getD i 0
    ∧ RPCConnection.decChar (RPCConnection.CIPHER.getD a []) (RPCConnection.CIPHER.getD b [])
        (RPCConnection.encChar (RPCConnection.CIPHER.getD a [])
          (RPCConnection.CIPHER.getD b [])
          ((RPCConnection.CIPHER.getD a []).getD i 0))
      = (RPCConnection.CIPHER.getD a []).getD i 0 := by
  obtain ⟨hnda, hla⟩ := cipher_row_facts a ha2
  obtain ⟨hndb, hlb⟩ := cipher_row_facts b hb2
  have hia : i < (RPCConnection.CIPHER.getD a []).length := by rw [hla]; exact hi
  have hib : i < (RPCConnection.CIPHER.getD b []).length := by rw [hlb]; exact hi
  have henc : RPCConnection.encChar (RPCConnection.CIPHER.getD a [])
      (RPCConnection.CIPHER.getD b []) ((RPCConnection.CIPHER.getD a []).getD i 0)
      = (RPCConnection.CIPHER.getD b []).getD i 0 := by
    unfold RPCConnection.encChar
    rw [findIdxA_self _ hnda i hia]
  refine ⟨henc, ?_⟩
  rw [henc]
  unfold RPCConnection.decChar
  rw [findIdxA_self _ hndb i hib]

/-- C5 witness: the round trip at rows 1 and 2, index 0. -/
theorem C5_cipher_roundtrip_witness :
    RPCConnection.encChar (RPCConnection.CIPHER.getD 1 []) (RPCConnection.CIPHER.getD 2 [])
        ((RPCConnection.CIPHER.getD 1 []).getD 0 0)
      = (RPCConnection.CIPHER.getD 2 []).getD 0 0
    ∧ RPCConnection.decChar (RPCConnection.CIPHER.getD 1 []) (RPCConnection.CIPHER.getD 2 [])
        (RPCConnection.encChar (RPCConnection.CIPHER.getD 1 [])
          (RPCConnection.CIPHER.getD 2 [])
          ((RPCConnection.CIPHER.getD 1 []).getD 0 0))
      = (RPCConnection.CIPHER.getD 1 []).getD 0 0 :=
  C5_cipher_roundtrip 1 2 0 (by decide) (by decide) (by decide) (by decide)
    (by decide) (by decide)

/-- C6 counterexample: the selection loop of encrypt can settle on a = 0
paired with b = 1, so encrypt does not always pick two non-zero row indices. -/
theorem C6_nonzero_cex :
    ¬ (∀ ra rb : Nat, RPCConnection.selectablePair ra rb → 0 < ra ∧ 0 < rb) := by
  intro h
  have := (h 0 1 (by decide)).1
  omega

/-- C6 amended: for every selectable pair of row indices a and b, where a may
be 0 and b is non-zero, the output of encrypt starts with code a + 32, ends
with code b + 32, has length equal to the input length plus two, and carries
at offset i + 1 the substitution of the input code at offset i. -/
theorem C6_structure (ra rb : Nat) (val : List Nat)
    (h : RPCConnection.selectablePair ra rb) :
    (RPCConnection.encrypt ra rb val).head? = some (ra + 32)
    ∧ (RPCConnection.encrypt ra rb val).getLast? = some (rb + 32)
    ∧ (RPCConnection.encrypt ra rb val).length = val.length + 2
    ∧ 0 < rb
    ∧ ∀ i, i < val.length →
        (RPCConnection.encrypt ra rb val).getD (i + 1) 0
          = RPCConnection.encChar (RPCConnection.CIPHER.getD ra [])
              (RPCConnection.CIPHER.getD rb []) (val.getD i 0) := by
  have hshape : RPCConnection.encrypt ra rb val
      = ((ra + 32) :: val.map (RPCConnection.encChar (RPCConnection.CIPHER.getD ra [])
          (RPCConnection.CIPHER.getD rb []))) ++ [rb + 32] := by
    simp [RPCConnection.encrypt]
  refine ⟨by simp [RPCConnection.encrypt], ?_, ?_, ?_, ?_⟩
  · rw [hshape, List.getLast?_concat]
  · rw [hshape]; simp
  · have := h.2.2
    omega
  · intro i hilt
    rw [hshape, List.cons_append, List.getD_cons_succ]
    have hlen : i < (val.map (RPCConnection.encChar (RPCConnection.CIPHER.getD ra [])
        (RPCConnection.CIPHER.getD rb []))).length := by
      simpa using hilt
    rw [List.getD_append _ _ _ _ hlen]
    rw [List.getD_eq_getElem _ _ hlen, List.getElem_map,
        List.getD_eq_getElem _ _ hilt]

/-- C6 witness: the shape facts at rows 1 and 2 on a one-character input. -/
theorem C6_structure_witness :
    (RPCConnection.encrypt 1 2 [65]).head? = some 33
    ∧ (RPCConnection.encrypt 1 2 [65]).getLast? = some 34
    ∧ (RPCConnection.encrypt 1 2 [65]).length = 3
    ∧ (0 : Nat) < 2
    ∧ ∀ i, i < 1 →
        (RPCConnection.encrypt 1 2 [65]).getD (i + 1) 0
          = RPCConnection.encChar (RPCConnection.CIPHER.getD 1 [])
              (RPCConnection.CIPHER.getD 2 []) (([65] : List Nat).getD i 0) :=
  C6_structure 1 2 [65] (by decide)

theorem foldBE_toLE (m : Nat) :
    ((CIARPCConnection.toLE m).reverse).foldl (fun acc x => acc * 256 + x) 0 = m := by
  induction m using Nat.strong_induction_on with
  | _ m ih =>
    by_cases h : m = 0
    · subst h
      rw [CIARPCConnection.toLE]
      simp
    · rw [CIARPCConnection.toLE, dif_neg h]
      rw [List.reverse_cons, List.foldl_append]
      rw [ih (m / 256) (Nat.div_lt_self (by omega) (by omega))]
      simp only [List.foldl_cons, List.foldl_nil]
      omega

/-- C8: the nibble-packed length header emitted by byteIt for a field of byte
length L, a first code with the count of extra length bytes in the high
nibble and L mod 16 in the low nibble followed by the extra bytes most
significant first, decodes back to exactly L together with the field bytes. -/
theorem C8_nibble_header_roundtrip (s : List Nat) (hbound : s.length < 16 * 256 ^ 15) :
    CIARPCConnection.decodeHeader (CIARPCConnection.byteIt s) = some (s.length, s) := by
  have hshape : CIARPCConnection.byteIt s
      = ((CIARPCConnection.toLE (s.length / 16)).length * 16 + s.length % 16)
        :: ((CIARPCConnection.toLE (s.length / 16)).reverse ++ s) := by
    unfold CIARPCConnection.byteIt CIARPCConnection.byteItHeader
    simp
  rw [hshape]
  simp only [CIARPCConnection.decodeHeader]
  have hb16 : ((CIARPCConnection.toLE (s.length / 16)).length * 16 + s.length % 16) / 16
      = (CIARPCConnection.toLE (s.length / 16)).length := by omega
  have hm16 : ((CIARPCConnection.toLE (s.length / 16)).length * 16 + s.length % 16) % 16
      = s.length % 16 := by omega
  rw [hb16, hm16]
  have hrev : (CIARPCConnection.toLE (s.length / 16)).length
      = ((CIARPCConnection.toLE (s.length / 16)).reverse).length := by simp
  have hle : (CIARPCConnection.toLE (s.length / 16)).length
      ≤ ((CIARPCConnection.toLE (s.length / 16)).reverse ++ s).length := by
    simp
  rw [if_pos hle]
  rw [hrev, List.take_left, List.drop_left, foldBE_toLE]
  have : s.length / 16 * 16 + s.length % 16 = s.length := by omega
  rw [this]

/-- C8 witness: the header round trip at the boundary length 16. -/
theorem C8_nibble_header_roundtrip_witness :
    CIARPCConnection.decodeHeader (CIARPCConnection.byteIt (List.replicate 16 0))
      = some ((List.replicate 16 0).length, List.replicate 16 0) :=
  C8_nibble_header_roundtrip (List.replicate 16 0) (by decide)

theorem decDigits_lt10 (n : Nat) (h : n < 10) :
    VistARPCConnection.decDigits n = [48 + n] := by
  rw [VistARPCConnection.decDigits, dif_pos h]

theorem decDigits_mid (n : Nat) (h1 : 10 ≤ n) (h2 : n < 100) :
    VistARPCConnection.decDigits n = [48 + n / 10, 48 + n % 10] := by
  rw [VistARPCConnection.decDigits, dif_neg (by omega)]
  rw [decDigits_lt10 (n / 10) (by omega)]
  rfl

theorem decDigits_high (n : Nat) (h1 : 100 ≤ n) (h2 : n ≤ 999) :
    VistARPCConnection.decDigits n = [48 + n / 100, 48 + n / 10 % 10, 48 + n % 10] := by
  rw [VistARPCConnection.decDigits, dif_neg (by omega)]
  rw [decDigits_mid (n / 10) (by omega) (by omega)]
  have : n / 10 / 10 = n / 100 := by omega
  rw [this]
  rfl

theorem zfill3_eq (n : Nat) (h : n ≤ 999) :
    VistARPCConnection.zfill3 n = [48 + n / 100, 48 + n / 10 % 10, 48 + n % 10] := by
  unfold VistARPCConnection.zfill3
  rcases Nat.lt_or_ge n 10 with h1 | h1
  · rw [decDigits_lt10 n h1]
    have e1 : n / 100 = 0 := by omega
    have e2 : n / 10 = 0 := by omega
    have e3 : n % 10 = n := by omega
    simp [e1, e2, e3, List.replicate]
  · rcases Nat.lt_or_ge n 100 with h2 | h2
    · rw [decDigits_mid n h1 h2]
      have e1 : n / 100 = 0 := by omega
      have e2 : n / 10 % 10 = n / 10 := by omega
      simp [e1, e2, List.replicate]
    · rw [decDigits_high n h2 h]
      simp

theorem read3_zfill3 (n : Nat) (h : n ≤ 999) (r : List Nat) :
    VistARPCConnection.read3 (VistARPCConnection.zfill3 n ++ r) = some (n, r) := by
  rw [zfill3_eq n h]
  show (if 48 ≤ 48 + n / 100 ∧ 48 + n / 100 ≤ 57 ∧ 48 ≤ 48 + n / 10 % 10
          ∧ 48 + n / 10 % 10 ≤ 57 ∧ 48 ≤ 48 + n % 10 ∧ 48 + n % 10 ≤ 57 then
        some ((48 + n / 100 - 48) * 100 + (48 + n / 10 % 10 - 48) * 10 + (48 + n % 10 - 48), r)
      else none)
    = some (n, r)
  rw [if_pos (by omega)]
  have : (48 + n / 100 - 48) * 100 + (48 + n / 10 % 10 - 48) * 10 + (48 + n % 10 - 48) = n := by
    omega
  rw [this]

theorem takeN_append (s r : List Nat) :
    VistARPCConnection.takeN s.length (s ++ r) = some (s, r) := by
  unfold VistARPCConnection.takeN
  rw [if_pos (by simp)]
  rw [List.take_left, List.drop_left]

theorem dropTok_self (t l : List Nat) : VistARPCConnection.dropTok t (t ++ l) = some l := by
  induction t with
  | nil => rfl
  | cons x xs ih => simp [VistARPCConnection.dropTok, ih]

theorem parsePair_rt (k v : List Nat) (hk : k.length ≤ 999) (hv : v.length ≤ 999)
    (r : List Nat) :
    VistARPCConnection.parsePair
        (VistARPCConnection.zfill3 k.length
          ++ (k ++ (VistARPCConnection.zfill3 v.length ++ (v ++ r))))
      = some ((k, v), r) := by
  simp only [VistARPCConnection.parsePair, read3_zfill3 _ hk, read3_zfill3 _ hv, takeN_append]

theorem decDigits_ne_nil (n : Nat) : VistARPCConnection.decDigits n ≠ [] := by
  rw [VistARPCConnection.decDigits]
  split <;> simp

theorem zfill3_len_pos (n : Nat) : 1 ≤ (VistARPCConnection.zfill3 n).length := by
  unfold VistARPCConnection.zfill3
  have := decDigits_ne_nil n
  have := List.length_pos.mpr this
  simp
  omega

theorem kvs_le_encodeKVs_len (kvs : List (List Nat × List Nat)) :
    ∀ first : Bool, kvs.length ≤ (VistARPCConnection.encodeKVs first kvs).length := by
  induction kvs with
  | nil => intro first; simp [VistARPCConnection.encodeKVs]
  | cons kv rest ih =>
    intro first
    obtain ⟨k, v⟩ := kv
    have h1 := zfill3_len_pos k.length
    have h2 := ih false
    simp only [VistARPCConnection.encodeKVs, List.length_append, List.length_cons]
    cases first <;> simp <;> omega

theorem encodeParam_len_pos (p : VistARPCConnection.Param) :
    1 ≤ (VistARPCConnection.encodeParam p).length := by
  cases p <;> simp [VistARPCConnection.encodeParam]

theorem params_le_flatten_len (params : List VistARPCConnection.Param) :
    params.length ≤ ((params.map VistARPCConnection.encodeParam).flatten).length := by
  induction params with
  | nil => simp
  | cons p ps ih =>
    have := encodeParam_len_pos p
    simp only [List.map_cons, List.flatten_cons, List.length_append, List.length_cons]
    omega

theorem parsePairsRest_rt (kvs : List (List Nat × List Nat)) :
    ∀ (fuel : Nat) (r : List Nat),
      (∀ kv ∈ kvs, kv.1.length ≤ 999 ∧ kv.2.length ≤ 999) →
      kvs.length < fuel →
      VistARPCConnection.parsePairsRest fuel
          (VistARPCConnection.encodeKVs false kvs ++ 102 :: r)
        = some (kvs, r) := by
  induction kvs with
  | nil =>
    intro fuel r _ hf
    match fuel, hf with
    | f + 1, _ =>
      simp [VistARPCConnection.encodeKVs, VistARPCConnection.parsePairsRest]
  | cons kv rest ih =>
    intro fuel r hval hf
    obtain ⟨k, v⟩ := kv
    match fuel, hf with
    | f + 1, hf =>
      have hk : k.length ≤ 999 := by simpa using (hval (k, v) (by simp)).1
      have hv : v.length ≤ 999 := by simpa using (hval (k, v) (by simp)).2
      have hshape : VistARPCConnection.encodeKVs false ((k, v) :: rest) ++ 102 :: r
          = 116 :: (VistARPCConnection.zfill3 k.length
              ++ (k ++ (VistARPCConnection.zfill3 v.length
                ++ (v ++ (VistARPCConnection.encodeKVs false rest ++ 102 :: r))))) := by
        simp [VistARPCConnection.encodeKVs]
      have hval2 : ∀ kv ∈ rest, kv.1.length ≤ 999 ∧ kv.2.length ≤ 999 :=
        fun kv hm => hval kv (by simp [hm])
      have hf2 : rest.length < f := by
        simp only [List.length_cons] at hf
        omega
      rw [hshape]
      simp only [VistARPCConnection.parsePairsRest, parsePair_rt k v hk hv,
        ih f r hval2 hf2]
      simp

theorem parsePairsStart_rt (kvs : List (List Nat × List Nat)) (fuel : Nat) (r : List Nat)
    (hval : ∀ kv ∈ kvs, kv.1.length ≤ 999 ∧ kv.2.length ≤ 999)
    (hf : kvs.length ≤ fuel) :
    VistARPCConnection.parsePairsStart fuel
        (VistARPCConnection.encodeKVs true kvs ++ 102 :: r)
      = some (kvs, r) := by
  cases kvs with
  | nil => simp [VistARPCConnection.encodeKVs, VistARPCConnection.parsePairsStart]
  | cons kv rest =>
    obtain ⟨k, v⟩ := kv
    have hk : k.length ≤ 999 := by simpa using (hval (k, v) (by simp)).1
    have hv : v.length ≤ 999 := by simpa using (hval (k, v) (by simp)).2
    have hshape : VistARPCConnection.encodeKVs true ((k, v) :: rest) ++ 102 :: r
        = VistARPCConnection.zfill3 k.length
            ++ (k ++ (VistARPCConnection.zfill3 v.length
              ++ (v ++ (VistARPCConnection.encodeKVs false rest ++ 102 :: r)))) := by
      simp [VistARPCConnection.encodeKVs]
    rw [hshape]
    have hhead : (VistARPCConnection.zfill3 k.length
        ++ (k ++ (VistARPCConnection.zfill3 v.length
          ++ (v ++ (VistARPCConnection.encodeKVs false rest ++ 102 :: r))))).head?
        = some (48 + k.length / 100) := by
      rw [zfill3_eq k.length hk]
      rfl
    have hval2 : ∀ kv ∈ rest, kv.1.length ≤ 999 ∧ kv.2.length ≤ 999 :=
      fun kv hm => hval kv (by simp [hm])
    have hf2 : rest.length < fuel := by
      simp only [List.length_cons] at hf
      omega
    unfold VistARPCConnection.parsePairsStart
    rw [if_neg (by rw [hhead]; intro hcontr; simp at hcontr; omega)]
    simp only [parsePair_rt k v hk hv, parsePairsRest_rt rest fuel r hval2 hf2]

theorem parseParams_rt (params : List VistARPCConnection.Param) :
    ∀ (fuel : Nat) (r : List Nat),
      (∀ p ∈ params, VistARPCConnection.validParam p) →
      params.length < fuel →
      VistARPCConnection.parseParams fuel
          ((params.map VistARPCConnection.encodeParam).flatten ++ 4 :: r)
        = some (params, r) := by
  induction params with
  | nil =>
    intro fuel r _ hf
    match fuel, hf with
    | f + 1, _ => simp [VistARPCConnection.parseParams]
  | cons p ps ih =>
    intro fuel r hval hf
    match fuel, hf with
    | f + 1, hf =>
      have hval2 : ∀ q ∈ ps, VistARPCConnection.validParam q :=
        fun q hm => hval q (by simp [hm])
      have hf2 : ps.length < f := by
        simp only [List.length_cons] at hf
        omega
      cases p with
      | scalar s =>
        have hs : s.length ≤ 999 := by
          have := hval (VistARPCConnection.Param.scalar s) (by simp)
          simpa [VistARPCConnection.validParam] using this
        have hshape :
            ((VistARPCConnection.Param.scalar s :: ps).map
                VistARPCConnection.encodeParam).flatten ++ 4 :: r
            = 48 :: (VistARPCConnection.zfill3 s.length
                ++ (s ++ (102 :: ((ps.map VistARPCConnection.encodeParam).flatten
                  ++ 4 :: r)))) := by
          simp [VistARPCConnection.encodeParam]
        rw [hshape]
        simp only [VistARPCConnection.parseParams, read3_zfill3 _ hs, takeN_append,
          ih f r hval2 hf2]
        simp
      | keyed kvs =>
        have hkv : ∀ kv ∈ kvs, kv.1.length ≤ 999 ∧ kv.2.length ≤ 999 := by
          have := hval (VistARPCConnection.Param.keyed kvs) (by simp)
          simpa [VistARPCConnection.validParam] using this
        have hshape :
            ((VistARPCConnection.Param.keyed kvs :: ps).map
                VistARPCConnection.encodeParam).flatten ++ 4 :: r
            = 50 :: (VistARPCConnection.encodeKVs true kvs
                ++ 102 :: ((ps.map VistARPCConnection.encodeParam).flatten ++ 4 :: r)) := by
          simp [VistARPCConnection.encodeParam]
        rw [hshape]
        have hfkvs : kvs.length
            ≤ (VistARPCConnection.encodeKVs true kvs
                ++ 102 :: ((ps.map VistARPCConnection.encodeParam).flatten ++ 4 :: r)).length := by
          have h2 := kvs_le_encodeKVs_len kvs true
          simp only [List.length_append, List.length_cons]
          omega
        simp only [VistARPCConnection.parseParams,
          parsePairsStart_rt kvs _ _ hkv hfkvs, ih f r hval2 hf2]
        simp

theorem parseBody_rt (params : List VistARPCConnection.Param)
    (hval : ∀ p ∈ params, VistARPCConnection.validParam p) :
    VistARPCConnection.parseBody
        ((if params.isEmpty then [52, 102]
          else (params.map VistARPCConnection.encodeParam).flatten) ++ [4])
      = some (params, []) := by
  cases params with
  | nil => simp [VistARPCConnection.parseBody]
  | cons p ps =>
    have hlen : ((p :: ps).map VistARPCConnection.encodeParam).flatten.length + 1
        > (p :: ps).length + 0 := by
      have := params_le_flatten_len (p :: ps)
      omega
    simp only [List.isEmpty_cons, Bool.false_eq_true, if_false]
    cases p with
    | scalar s =>
      have hshape :
          ((VistARPCConnection.Param.scalar s :: ps).map
              VistARPCConnection.encodeParam).flatten ++ [4]
          = 48 :: (VistARPCConnection.zfill3 s.length
              ++ (s ++ (102 :: ((ps.map VistARPCConnection.encodeParam).flatten
                ++ 4 :: [])))) := by
        simp [VistARPCConnection.encodeParam]
      rw [hshape]
      simp only [VistARPCConnection.parseBody]
      rw [if_neg (by decide : ¬((48 : Nat) = 52))]
      rw [← hshape]
      refine parseParams_rt _ _ [] hval ?_
      have hflat := params_le_flatten_len (VistARPCConnection.Param.scalar s :: ps)
      simp only [List.length_cons] at hflat
      simp only [List.length_append, List.length_cons, List.length_nil]
      omega
    | keyed kvs =>
      have hshape :
          ((VistARPCConnection.Param.keyed kvs :: ps).map
              VistARPCConnection.encodeParam).flatten ++ [4]
          = 50 :: (VistARPCConnection.encodeKVs true kvs
              ++ 102 :: ((ps.map VistARPCConnection.encodeParam).flatten ++ 4 :: [])) := by
        simp [VistARPCConnection.encodeParam]
      rw [hshape]
      simp only [VistARPCConnection.parseBody]
      rw [if_neg (by decide : ¬((50 : Nat) = 52))]
      rw [← hshape]
      refine parseParams_rt _ _ [] hval ?_
      have hflat := params_le_flatten_len (VistARPCConnection.Param.keyed kvs :: ps)
      simp only [List.length_cons] at hflat
      simp only [List.length_append, List.length_cons, List.length_nil]
      omega

/-- C7: for every command flag, RPC name of bounded length and parameter list
whose scalars and key and value strings fit their 3-digit length fields,
decoding the byte stream built by makeRequest recovers the name and the exact
ordered parameter list, scalars distinguished from keyed collections and the
order of parameters and of pairs preserved. -/
theorem C7_va_request_roundtrip (isCmd : Bool) (name : List Nat)
    (params : List VistARPCConnection.Param)
    (hname : name.length ≤ 255)
    (hval : ∀ p ∈ params, VistARPCConnection.validParam p) :
    VistARPCConnection.parseVARequest (VistARPCConnection.makeRequest name params isCmd)
      = some (isCmd, name, params) := by
  have hbody := parseBody_rt params hval
  cases isCmd with
  | true =>
    have hshape : VistARPCConnection.makeRequest name params true
        = protocolToken ++ (52 :: (name.length :: (name
            ++ (53 :: ((if params.isEmpty then [52, 102]
              else (params.map VistARPCConnection.encodeParam).flatten) ++ [4]))))) := by
      simp [VistARPCConnection.makeRequest]
    rw [hshape]
    simp only [VistARPCConnection.parseVARequest, dropTok_self, takeN_append, hbody]
    simp
  | false =>
    have hshape : VistARPCConnection.makeRequest name params false
        = protocolToken ++ (50 :: 1 :: 49 :: (name.length :: (name
            ++ (53 :: ((if params.isEmpty then [52, 102]
              else (params.map VistARPCConnection.encodeParam).flatten) ++ [4]))))) := by
      simp [VistARPCConnection.makeRequest]
    rw [hshape]
    simp only [VistARPCConnection.parseVARequest, dropTok_self, takeN_append, hbody]
    simp

/-- C7 witness: the round trip on a request with one scalar parameter and one
keyed collection. -/
theorem C7_va_request_roundtrip_witness :
    VistARPCConnection.parseVARequest
        (VistARPCConnection.makeRequest [65]
          [VistARPCConnection.Param.scalar [66],
           VistARPCConnection.Param.keyed [([67], [68])]] false)
      = some (false, [65],
          [VistARPCConnection.Param.scalar [66],
           VistARPCConnection.Param.keyed [([67], [68])]]) :=
  C7_va_request_roundtrip false [65]
    [VistARPCConnection.Param.scalar [66], VistARPCConnection.Param.keyed [([67], [68])]]
    (by decide) (by decide)

/-- C1 counterexample: two consecutive empty replies make invokeRPC return
the empty string as a value instead of raising an error. -/
theorem C1_empty_retry_cex :
    (RPCConnection.invokeRPC SockSt.openSock [42] (RPCConnection.AttemptRes.reply [])
        (RPCConnection.AttemptRes.reply [])).1
      = Except.ok ([] : List Nat) := rfl

/-- C1 amended: when the first attempt raises a socket error or yields an
empty reply, invokeRPC performs exactly one recovery attempt, one reconnect
followed by resending the same request, and never a second retry; a socket
error during the retry propagates to the caller, while an empty reply on the
retry is returned as the empty string rather than raising. -/
theorem C1_single_retry (st : SockSt) (req : List Nat)
    (a1 a2 : RPCConnection.AttemptRes)
    (hfail : a1 = RPCConnection.AttemptRes.sockErr
      ∨ a1 = RPCConnection.AttemptRes.reply []) :
    (RPCConnection.invokeRPC st req a1 a2).2.1 = [req, req]
    ∧ (RPCConnection.invokeRPC st req a1 a2).2.2
        = (if RPCConnection.connectsOnInvoke st then 1 else 0) + 1
    ∧ (RPCConnection.invokeRPC st req a1 a2).1 = RPCConnection.retryAttempt a2
    ∧ (∀ m, a2 = RPCConnection.AttemptRes.reply m →
        (RPCConnection.invokeRPC st req a1 a2).1 = Except.ok m)
    ∧ (a2 = RPCConnection.AttemptRes.sockErr →
        (RPCConnection.invokeRPC st req a1 a2).1
          = Except.error RPCConnection.InvokeErr.sockFail) := by
  rcases hfail with h | h <;> subst h <;>
    exact ⟨rfl, rfl, rfl, fun m hm => by subst hm; rfl, fun hs => by subst hs; rfl⟩

/-- C1 witness: a socket error on the first attempt followed by a good reply
on the retry sends the request twice and returns the retried reply. -/
theorem C1_single_retry_witness :
    (RPCConnection.invokeRPC SockSt.openSock [42] RPCConnection.AttemptRes.sockErr
        (RPCConnection.AttemptRes.reply [7])).2.1 = [[42], [42]]
    ∧ (RPCConnection.invokeRPC SockSt.openSock [42] RPCConnection.AttemptRes.sockErr
        (RPCConnection.AttemptRes.reply [7])).1 = Except.ok [7] :=
  ⟨(C1_single_retry SockSt.openSock [42] RPCConnection.AttemptRes.sockErr
      (RPCConnection.AttemptRes.reply [7]) (Or.inl rfl)).1,
   (C1_single_retry SockSt.openSock [42] RPCConnection.AttemptRes.sockErr
      (RPCConnection.AttemptRes.reply [7]) (Or.inl rfl)).2.2.2.1 [7] rfl⟩

/-- C2 counterexample: when the borrowed transport raises, the pool re-raises
without putting the transport back, so the store afterwards is missing it. -/
theorem C2_pool_leak_cex :
    RPCConnectionPool.invokeRPC (5 : Nat) ([] : List Nat)
        (fun _ => (Except.error (0 : Nat) : Except Nat Nat))
      = (Except.error 0, [])
    ∧ ([] : List Nat) ≠ [5] :=
  ⟨rfl, by decide⟩

/-- C2 amended: on a successful invocation the borrowed transport is pushed
back onto the LIFO store before the reply is returned, but on a raised error
the exception is re-raised without returning the transport, so the store
afterwards no longer contains it. -/
theorem C2_pool_return {a e r : Type} (t : a) (rest : List a)
    (behave : a → Except e r) :
    (∀ v, behave t = Except.ok v →
        RPCConnectionPool.invokeRPC t rest behave = (Except.ok v, t :: rest))
    ∧ (∀ err, behave t = Except.error err →
        RPCConnectionPool.invokeRPC t rest behave = (Except.error err, rest)) := by
  constructor <;> intro x hx <;> simp [RPCConnectionPool.invokeRPC, hx]

/-- C2 witness: the success and failure paths of the pool on concrete
stores. -/
theorem C2_pool_return_witness :
    RPCConnectionPool.invokeRPC (1 : Nat) [2]
        (fun _ => (Except.ok (9 : Nat) : Except Nat Nat))
      = (Except.ok 9, [1, 2])
    ∧ RPCConnectionPool.invokeRPC (1 : Nat) [2]
        (fun _ => (Except.error (7 : Nat) : Except Nat Nat))
      = (Except.error 7, [2]) :=
  ⟨(C2_pool_return 1 [2] (fun _ => Except.ok 9)).1 9 rfl,
   (C2_pool_return 1 [2] (fun _ => Except.error 7)).2 7 rfl⟩

/-- C3 counterexample: a rejected negotiation reply makes connect raise, yet
the socket attribute is left holding the open socket rather than None, so a
subsequent invokeRPC does not call connect first. -/
theorem C3_handshake_state_cex :
    (VistARPCConnection.connect SockSt.noSock
        ⟨[114, 101, 106, 101, 99, 116], [], [], []⟩).1 = Except.error ()
    ∧ (VistARPCConnection.connect SockSt.noSock
        ⟨[114, 101, 106, 101, 99, 116], [], [], []⟩).2 = SockSt.openSock
    ∧ SockSt.openSock ≠ SockSt.noSock
    ∧ RPCConnection.connectsOnInvoke SockSt.openSock = false :=
  ⟨rfl, rfl, by decide, rfl⟩

/-- C3 amended: a failed handshake check makes connect raise but leaves the
socket attribute set to the newly opened socket, so a following invokeRPC
does not rerun the handshake first; whenever connect is invoked again it
closes any previous socket and reruns the full handshake from the start,
independent of the state it was left in. -/
theorem C3_handshake_failure (st : SockSt) (rs : VistARPCConnection.HSReplies)
    (hfail : beginsWith acceptTok rs.r1 = false
      ∨ containsSeq invalidAVTok rs.r3 = true
      ∨ (containsSeq ctxNotCreatedTok rs.r4 || containsSeq ctxNotExistTok rs.r4) = true) :
    (VistARPCConnection.connect st rs).1 = Except.error ()
    ∧ (VistARPCConnection.connect st rs).2 = SockSt.openSock
    ∧ RPCConnection.connectsOnInvoke (VistARPCConnection.connect st rs).2 = false
    ∧ (∀ st2 rs2, VistARPCConnection.connect st2 rs2
        = VistARPCConnection.connect SockSt.noSock rs2) := by
  have hconn : VistARPCConnection.connect st rs = (Except.error (), SockSt.openSock) := by
    unfold VistARPCConnection.connect
    rcases hfail with h | h | h
    · rw [if_pos h]
    · by_cases h1 : beginsWith acceptTok rs.r1 = false
      · rw [if_pos h1]
      · rw [if_neg h1, if_pos h]
    · by_cases h1 : beginsWith acceptTok rs.r1 = false
      · rw [if_pos h1]
      · rw [if_neg h1]
        by_cases h2 : containsSeq invalidAVTok rs.r3 = true
        · rw [if_pos h2]
        · rw [if_neg h2, if_pos h]
  exact ⟨by rw [hconn], by rw [hconn], by rw [hconn]; rfl, fun st2 rs2 => rfl⟩

/-- C3 witness: a credential reply containing the invalid-pair marker makes
connect raise and leaves the socket attribute on the open socket. -/
theorem C3_handshake_failure_witness :
    (VistARPCConnection.connect SockSt.closedSock ⟨acceptTok, [], invalidAVTok, []⟩).1
      = Except.error ()
    ∧ (VistARPCConnection.connect SockSt.closedSock ⟨acceptTok, [], invalidAVTok, []⟩).2
      = SockSt.openSock :=
  ⟨(C3_handshake_failure SockSt.closedSock ⟨acceptTok, [], invalidAVTok, []⟩
      (Or.inr (Or.inl (by decide)))).1,
   (C3_handshake_failure SockSt.closedSock ⟨acceptTok, [], invalidAVTok, []⟩
      (Or.inr (Or.inl (by decide)))).2.1⟩

/-- C4 counterexample: the peer closing the connection before any end marker
makes the read loop return the partial accumulation as a value instead of
raising an exception. -/
theorem C4_truncated_reply_cex :
    RPCConnection.readToEndMarker 4 [[97, 98, 99], []] []
      = RPCConnection.ReadRes.ok [97, 98, 99] := by
  decide

theorem stripNul_of_acc_ne (acc : List (List Nat)) (chunk : List Nat) (h : acc ≠ []) :
    RPCConnection.stripNul acc chunk = chunk := by
  unfold RPCConnection.stripNul
  rw [if_neg (fun hand => h hand.1)]

theorem rtem_skip (em : Nat) (pre : List (List Nat)) :
    ∀ (suffix : List (List Nat)) (acc : List (List Nat)),
      acc ≠ [] →
      (∀ d ∈ pre, d ≠ [] ∧ d.getLastD 0 ≠ em) →
      RPCConnection.readToEndMarker em (pre ++ suffix) acc
        = RPCConnection.readToEndMarker em suffix (acc ++ pre) := by
  induction pre with
  | nil => intro suffix acc _ _; simp
  | cons c cs ih =>
    intro suffix acc hacc hpre
    obtain ⟨hne, hlast⟩ := hpre c (by simp)
    rw [List.cons_append, RPCConnection.readToEndMarker, if_neg hne,
      stripNul_of_acc_ne acc c hacc, if_neg hne, if_neg hlast]
    rw [ih suffix (acc ++ [c]) (by simp) (fun d hm => hpre d (by simp [hm]))]
    rw [← List.append_cons]

/-- C4 amended: when the first chunk, after removal of a leading NUL control
pair, is nonempty and does not end with the marker, and the later chunks
before the terminating one are nonempty and do not end with the marker (they
may begin with any code, including 0, and are accumulated whole), a chunk
ending with the end marker yields the complete accumulation with the final
marker stripped; but when the peer closes the connection before the end
marker is seen, the partial accumulation read so far (possibly empty) is
returned as a value, not raised as an exception. -/
theorem C4_read_accumulation (em : Nat) :
    (∀ (c0 : List Nat) (rest : List (List Nat)),
      c0 ≠ [] → RPCConnection.stripNul [] c0 ≠ [] →
      (RPCConnection.stripNul [] c0).getLastD 0 = em →
      RPCConnection.readToEndMarker em (c0 :: rest) []
        = RPCConnection.ReadRes.ok (RPCConnection.stripNul [] c0).dropLast)
    ∧ (∀ (c0 : List Nat) (pre : List (List Nat)) (c : List Nat) (rest : List (List Nat)),
      c0 ≠ [] → RPCConnection.stripNul [] c0 ≠ [] →
      (RPCConnection.stripNul [] c0).getLastD 0 ≠ em →
      (∀ d ∈ pre, d ≠ [] ∧ d.getLastD 0 ≠ em) →
      RPCConnection.readToEndMarker em (c0 :: (pre ++ (c ++ [em]) :: rest)) []
        = RPCConnection.ReadRes.ok
            (RPCConnection.stripNul [] c0 ++ (pre.flatten ++ c)))
    ∧ (∀ rest : List (List Nat),
      RPCConnection.readToEndMarker em ([] :: rest) [] = RPCConnection.ReadRes.ok [])
    ∧ (∀ (c0 : List Nat) (pre : List (List Nat)) (rest : List (List Nat)),
      c0 ≠ [] → RPCConnection.stripNul [] c0 ≠ [] →
      (RPCConnection.stripNul [] c0).getLastD 0 ≠ em →
      (∀ d ∈ pre, d ≠ [] ∧ d.getLastD 0 ≠ em) →
      RPCConnection.readToEndMarker em (c0 :: (pre ++ [] :: rest)) []
        = RPCConnection.ReadRes.ok (RPCConnection.stripNul [] c0 ++ pre.flatten)) := by
  refine ⟨?_, ?_, ?_, ?_⟩
  · intro c0 rest h0 hs0 hlast
    rw [RPCConnection.readToEndMarker, if_neg h0, if_neg hs0, if_pos hlast]
    simp
  · intro c0 pre c rest h0 hs0 hlast0 hpre
    rw [RPCConnection.readToEndMarker, if_neg h0, if_neg hs0, if_neg hlast0]
    rw [rtem_skip em pre _ ([] ++ [RPCConnection.stripNul [] c0]) (by simp) hpre]
    have hne : c ++ [em] ≠ [] := by simp
    rw [RPCConnection.readToEndMarker, if_neg hne,
      stripNul_of_acc_ne _ _ (by simp), if_neg hne]
    rw [if_pos (by simp [List.getLastD_concat])]
    simp
  · intro rest
    rw [RPCConnection.readToEndMarker, if_pos rfl]
    simp
  · intro c0 pre rest h0 hs0 hlast0 hpre
    rw [RPCConnection.readToEndMarker, if_neg h0, if_neg hs0, if_neg hlast0]
    rw [rtem_skip em pre _ ([] ++ [RPCConnection.stripNul [] c0]) (by simp) hpre]
    rw [RPCConnection.readToEndMarker, if_pos rfl]
    simp

/-- C4 witness: the read outcomes on concrete chunk scripts, with a
NUL-prefixed first chunk followed by a chunk that itself begins with 0. -/
theorem C4_read_accumulation_witness :
    RPCConnection.readToEndMarker 4 [[0, 1, 97], [0, 98], [99, 4]] []
      = RPCConnection.ReadRes.ok [97, 0, 98, 99]
    ∧ RPCConnection.readToEndMarker 4 [[0, 1, 99, 4]] [] = RPCConnection.ReadRes.ok [99]
    ∧ RPCConnection.readToEndMarker 4 [[], [5]] [] = RPCConnection.ReadRes.ok []
    ∧ RPCConnection.readToEndMarker 4 [[0, 1, 97], [0, 98], []] []
      = RPCConnection.ReadRes.ok [97, 0, 98] := by
  refine ⟨?_, ?_, ?_, ?_⟩
  · have h := (C4_read_accumulation 4).2.1 [0, 1, 97] [[0, 98]] [99] []
      (by decide) (by decide) (by decide) (by decide)
    simpa [RPCConnection.stripNul] using h
  · have h := (C4_read_accumulation 4).1 [0, 1, 99, 4] []
      (by decide) (by decide) (by decide)
    simpa [RPCConnection.stripNul] using h
  · exact (C4_read_accumulation 4).2.2.1 [[5]]
  · have h := (C4_read_accumulation 4).2.2.2 [0, 1, 97] [[0, 98]] []
      (by decide) (by decide) (by decide) (by decide)
    simpa [RPCConnection.stripNul] using h

/-- C9 counterexample: after a first close has closed the socket, the
attribute still holds the socket object, so a second close attempts a send on
the closed socket and raises instead of completing without effect. -/
theorem C9_close_cex :
    RPCConnection.close SockSt.openSock = (Except.ok SockSt.closedSock, [byeTok])
    ∧ (RPCConnection.close SockSt.closedSock).1 = Except.error () :=
  ⟨rfl, rfl⟩

/-- C9 amended: close on an open socket sends the terminating token and
closes the socket, close on a transport whose socket was never opened is a
no-op, but close after a previous close raises because the socket attribute
is never cleared. -/
theorem C9_close_behavior :
    RPCConnection.close SockSt.noSock = (Except.ok SockSt.noSock, [])
    ∧ RPCConnection.close SockSt.openSock = (Except.ok SockSt.closedSock, [byeTok])
    ∧ RPCConnection.close SockSt.closedSock = (Except.error (), []) :=
  ⟨rfl, rfl, rfl⟩

/-- C10: pool construction builds exactly poolSize transports, every broker
type other than the CIA token yields VistA transports for all slots with no
error raised, and the CIA token yields CIA transports. -/
theorem C10_pool_prebuild (brokerType : List Nat) (poolSize : Nat) :
    (RPCConnectionPool.prebuildConnections brokerType poolSize).length = poolSize
    ∧ (brokerType ≠ ciaTok →
        ∀ c ∈ RPCConnectionPool.prebuildConnections brokerType poolSize,
          c.1 = RPCConnectionPool.Flavor.vista)
    ∧ (brokerType = ciaTok →
        ∀ c ∈ RPCConnectionPool.prebuildConnections brokerType poolSize,
          c.1 = RPCConnectionPool.Flavor.cia) := by
  refine ⟨by simp [RPCConnectionPool.prebuildConnections], ?_, ?_⟩
  · intro hne c hc
    simp only [RPCConnectionPool.prebuildConnections, List.mem_map,
      List.mem_range] at hc
    obtain ⟨k, hk, rfl⟩ := hc
    simp [hne]
  · intro heq c hc
    simp only [RPCConnectionPool.prebuildConnections, List.mem_map,
      List.mem_range] at hc
    obtain ⟨k, hk, rfl⟩ := hc
    simp [heq]

/-- C10 witness: a misspelled VISTA broker type yields a pool of two VistA
transports. -/
theorem C10_pool_prebuild_witness :
    (RPCConnectionPool.prebuildConnections [86, 73, 83, 84, 65] 2).length = 2
    ∧ ∀ c ∈ RPCConnectionPool.prebuildConnections [86, 73, 83, 84, 65] 2,
        c.1 = RPCConnectionPool.Flavor.vista :=
  ⟨(C10_pool_prebuild [86, 73, 83, 84, 65] 2).1,
   (C10_pool_prebuild [86, 73, 83, 84, 65] 2).2.1 (by decide)⟩

end BrokerRPC
